import Mathlib

/-!
Shallow embedding of the Expression Converter & Evaluator core
(`src/script.js`, class `ExpressionConverter`): operator table, validator,
tokenizer, infix→postfix conversion (Shunting Yard), infix→prefix conversion
(reverse / swap parentheses / convert / reverse), and the stack-based
postfix/prefix evaluators.

Numbers are modelled exactly, as rationals (`ℚ`): the JavaScript code computes
with IEEE doubles, which agree with exact rational arithmetic on all the small
integer computations considered here.  JavaScript's `parseFloat` is modelled on
the fragment it is actually applied to (optional sign, decimal digits, optional
fractional part; no exponent, no `Infinity`), returning `none` for `NaN`.
-/

namespace ExprConv

/-! ## Operator table (constructor of `ExpressionConverter`) -/

/-- `this.operators`: which characters are operator symbols (`+ - * /`). -/
def isOperatorChar (c : Char) : Bool :=
  c = '+' || c = '-' || c = '*' || c = '/'

/-- `getPrecedence(op)`: `this.operators[op]?.precedence || 0`. -/
def getPrecedence (c : Char) : Nat :=
  if c = '+' || c = '-' then 1
  else if c = '*' || c = '/' then 2
  else 0

/-- `isLeftAssociative(op)`: `this.operators[op]?.associativity === 'left'`;
all four supported operators are left-associative. -/
def isLeftAssociative (c : Char) : Bool :=
  isOperatorChar c

/-- `isOperand(char)`: the regex `/[0-9a-zA-Z]/` (`Char.isAlphanum` is exactly
ASCII letters and digits). -/
def isOperandChar (c : Char) : Bool :=
  c.isAlphanum

/-! ## Validator (`validateExpression`) -/

/-- The six validation failures, one per `throw` site of `validateExpression`. -/
inductive ValidationError
  | invalidCharacter
  | unmatchedClosingParen
  | unmatchedOpeningParen
  | consecutiveOperators
  | invalidBoundary
  | emptyParens
deriving DecidableEq

/-- The character class of the regex `/^[a-zA-Z0-9+\-*\/().]+$/`. -/
def isValidChar (c : Char) : Bool :=
  c.isAlphanum || c = '+' || c = '-' || c = '*' || c = '/' ||
    c = '(' || c = ')' || c = '.'

/-- The balance scan of `validateExpression`: increment on `(`, decrement on
`)`, fail with `unmatchedClosingParen` as soon as the balance is negative,
and with `unmatchedOpeningParen` if the final balance is nonzero. -/
def parenScan : List Char → Int → Option ValidationError
  | [], bal => if bal ≠ 0 then some .unmatchedOpeningParen else none
  | c :: rest, bal =>
    let bal' : Int := if c = '(' then bal + 1 else if c = ')' then bal - 1 else bal
    if bal' < 0 then some .unmatchedClosingParen else parenScan rest bal'

/-- Whether two adjacent characters both satisfy `p`; with `p = isOperatorChar`
this is the regex `/[+\-*\/]{2,}/`. -/
def hasTwoAdjacent (p : Char → Bool) : List Char → Bool
  | c1 :: c2 :: rest => (p c1 && p c2) || hasTwoAdjacent p (c2 :: rest)
  | _ => false

/-- The regex `/\(\)/`: an adjacent `(` `)` pair somewhere in the string. -/
def hasEmptyParens : List Char → Bool
  | '(' :: ')' :: _ => true
  | _ :: rest => hasEmptyParens rest
  | [] => false

/-- The character class of the boundary regexes `/[+*\/]$/` and `/^[+*\/]/`
(note: `-` is absent, so a leading or trailing `-` never triggers them).  -/
def isBoundaryOp (c : Char) : Bool :=
  c = '+' || c = '*' || c = '/'

/-- Whether the last character of the string is in `[+*/]` (regex `/[+*\/]$/`). -/
def lastIsBoundaryOp : List Char → Bool
  | [] => false
  | [c] => isBoundaryOp c
  | _ :: rest => lastIsBoundaryOp rest

/-- Whether the first character of the string is in `[+*/]` (regex `/^[+*\/]/`). -/
def firstIsBoundaryOp : List Char → Bool
  | [] => false
  | c :: _ => isBoundaryOp c

/-- `validateExpression(expression)`: the five checks in source order —
character set, parenthesis balance, consecutive operators, start/end boundary,
empty parentheses.  `.error` is the thrown exception, `.ok ()` a normal return.
(The character-set regex `^[…]+$` rejects the empty string.) -/
def validateExpression (s : String) : Except ValidationError Unit :=
  let l := s.toList
  if l.isEmpty || !(l.all isValidChar) then .error .invalidCharacter
  else
    match parenScan l 0 with
    | some e => .error e
    | none =>
      if hasTwoAdjacent isOperatorChar l then .error .consecutiveOperators
      else if lastIsBoundaryOp l || firstIsBoundaryOp l then .error .invalidBoundary
      else if hasEmptyParens l then .error .emptyParens
      else .ok ()

/-! ## Tokenizer

The conversion loops of `infixToPostfix` and `infixToPostfixForPrefix` walk the
string character by character, greedily consuming maximal alphanumeric runs as
one operand token (the inner `while` loop) and treating every other character
as a single symbol.  We factor this walk out as `tokenize`; characters that are
neither operands, parentheses nor operators (only `.` passes the validator) fall
through every branch of the source loop and are dropped, exactly as here. -/

/-- A lexical token of the conversion loops: a maximal alphanumeric run, or a
single non-operand character (parenthesis or operator symbol). -/
inductive Tok
  | operand (s : String)
  | sym (c : Char)
deriving DecidableEq

/-- The token list of the conversion loops' character walk; `buf` holds the
(reversed) operand run being consumed. -/
def tokenizeAux : List Char → List Char → List Tok
  | [], buf => if buf = [] then [] else [.operand (String.mk buf.reverse)]
  | c :: rest, buf =>
    if isOperandChar c then tokenizeAux rest (c :: buf)
    else
      (if buf = [] then [] else [.operand (String.mk buf.reverse)]) ++
      (if c = '(' || c = ')' || isOperatorChar c then [.sym c] else []) ++
      tokenizeAux rest []

/-- Tokenize a cleaned infix string. -/
def tokenize (l : List Char) : List Tok := tokenizeAux l []

/-! ## Infix → Postfix (`infixToPostfix`, Shunting Yard) -/

/-- The `while` loop of the `)` branch: pop operators to the output until the
top of the stack is `(` or the stack is empty.  Returns the popped tokens in
pop order and the remaining stack (head = top). -/
def popUntilLparen : List Char → List String × List Char
  | [] => ([], [])
  | top :: rest =>
    if top = '(' then ([], top :: rest)
    else
      let p := popUntilLparen rest
      (top.toString :: p.1, p.2)

/-- After the `)` pop loop: `if (operatorStack.length > 0) operatorStack.pop()`
— discard the `(` now on top, if any. -/
def dropLparen : List Char → List Char
  | [] => []
  | _ :: rest => rest

/-- The `while` loop of the operator branch of `infixToPostfix`: pop while the
top is not `(` and has greater precedence, or equal precedence with the
incoming operator left-associative. -/
def popForOperator (c : Char) : List Char → List String × List Char
  | [] => ([], [])
  | top :: rest =>
    if top ≠ '(' &&
        (getPrecedence top > getPrecedence c ||
          (getPrecedence top = getPrecedence c && isLeftAssociative c)) then
      let p := popForOperator c rest
      (top.toString :: p.1, p.2)
    else ([], top :: rest)

/-- The main loop of `infixToPostfix` over the token stream, then the final
"pop remaining operators" loop (which pops whatever is on the stack, including
a leftover `(`, into the output). -/
def postfixLoop : List Tok → List String → List Char → List String
  | [], output, stack => output ++ stack.map Char.toString
  | .operand s :: ts, output, stack => postfixLoop ts (output ++ [s]) stack
  | .sym c :: ts, output, stack =>
    if c = '(' then postfixLoop ts output (c :: stack)
    else if c = ')' then
      let p := popUntilLparen stack
      postfixLoop ts (output ++ p.1) (dropLparen p.2)
    else if isOperatorChar c then
      let p := popForOperator c stack
      postfixLoop ts (output ++ p.1) (c :: p.2)
    else postfixLoop ts output stack

/-- `output.join(' ')`. -/
def joinSpace : List String → String
  | [] => ""
  | [t] => t
  | t :: ts => t ++ " " ++ joinSpace ts

/-- `infixToPostfix(infix)`: tokenize, run the Shunting Yard loop, join the
output with single spaces.  (The source never throws here; an unmatched `)`
empties the stack silently and an unmatched `(` is popped into the output by
the final loop.) -/
def infixToPostfix (s : String) : String :=
  joinSpace (postfixLoop (tokenize s.toList) [] [])

/-! ## Infix → Prefix (`infixToPrefix` via `infixToPostfixForPrefix`) -/

/-- The operator-branch `while` loop of `infixToPostfixForPrefix`: pop while
the top is not `(` and has precedence `>=` that of the incoming operator
(no associativity test — the source comment says "use >= instead of > for
right associativity"). -/
def popForOperatorGe (c : Char) : List Char → List String × List Char
  | [] => ([], [])
  | top :: rest =>
    if top ≠ '(' && getPrecedence top ≥ getPrecedence c then
      let p := popForOperatorGe c rest
      (top.toString :: p.1, p.2)
    else ([], top :: rest)

/-- The main loop of `infixToPostfixForPrefix`: identical to `postfixLoop`
except for the operator pop condition. -/
def postfixLoopGe : List Tok → List String → List Char → List String
  | [], output, stack => output ++ stack.map Char.toString
  | .operand s :: ts, output, stack => postfixLoopGe ts (output ++ [s]) stack
  | .sym c :: ts, output, stack =>
    if c = '(' then postfixLoopGe ts output (c :: stack)
    else if c = ')' then
      let p := popUntilLparen stack
      postfixLoopGe ts (output ++ p.1) (dropLparen p.2)
    else if isOperatorChar c then
      let p := popForOperatorGe c stack
      postfixLoopGe ts (output ++ p.1) (c :: p.2)
    else postfixLoopGe ts output stack

/-- `infixToPostfixForPrefix(infix)`. -/
def infixToPostfixForPrefix (s : String) : String :=
  joinSpace (postfixLoopGe (tokenize s.toList) [] [])

/-- `reversed.replace(/x/g, repl)` for a single-character pattern `x`:
replace every occurrence of the character by the replacement string. -/
def replaceChar (target : Char) (repl : List Char) : List Char → List Char
  | [] => []
  | c :: rest =>
    if c = target then repl ++ replaceChar target repl rest
    else c :: replaceChar target repl rest

/-- `.replace(/TEMP/g, ')')`: leftmost, non-overlapping occurrences of the
four-character placeholder `TEMP` become `)`. -/
def replaceTemp : List Char → List Char
  | 'T' :: 'E' :: 'M' :: 'P' :: rest => ')' :: replaceTemp rest
  | c :: rest => c :: replaceTemp rest
  | [] => []

/-- The parenthesis swap of `infixToPrefix`:
`reversed.replace(/\(/g, 'TEMP').replace(/\)/g, '(').replace(/TEMP/g, ')')`. -/
def swapParens (l : List Char) : List Char :=
  replaceTemp (replaceChar ')' ['('] (replaceChar '(' ['T', 'E', 'M', 'P'] l))

/-- `prefix.split(' ')` / `postfix.split(' ')` (JavaScript `String.split(' ')`:
every single space is a separator and empty pieces are kept, so `""` splits to
`[""]`). -/
def splitSpaceAux : List Char → List Char → List String
  | [], buf => [String.mk buf.reverse]
  | c :: rest, buf =>
    if c = ' ' then String.mk buf.reverse :: splitSpaceAux rest []
    else splitSpaceAux rest (c :: buf)

/-- Split a string on single spaces, keeping empty pieces. -/
def splitSpace (s : String) : List String := splitSpaceAux s.toList []

/-- `infixToPrefix(infix)`: reverse the character sequence, swap the
parentheses, convert with the `>=` Shunting Yard variant, and reverse the
resulting token sequence. -/
def infixToPrefix (s : String) : String :=
  let reversed := s.toList.reverse
  let swapped := swapParens reversed
  let post := infixToPostfixForPrefix (String.mk swapped)
  joinSpace (splitSpace post).reverse

/-! ## Evaluators (`evaluatePostfix`, `evaluatePrefix`, `performOperation`) -/

/-- The evaluation failures, one per `throw` site of the evaluators and of
`performOperation`.  `insufficientOperands` covers both "Invalid postfix
expression: insufficient operands" and its prefix counterpart;
`malformedExpression` covers both "incorrect number of operators" messages. -/
inductive EvalError
  | insufficientOperands
  | unboundVariable
  | divisionByZero
  | malformedExpression
  | unknownOperator
deriving DecidableEq

/-- `this.isOperator(token)` on a whole token string: `token in this.operators`
holds exactly for the four one-character operator keys. -/
def isOperatorToken (t : String) : Bool :=
  t = "+" || t = "-" || t = "*" || t = "/"

/-- `/^[a-zA-Z]+$/.test(token)`: nonempty and all ASCII letters. -/
def isAlphaToken (t : String) : Bool :=
  !t.isEmpty && t.toList.all Char.isAlpha

/-- Maximal leading digit run of a character list. -/
def takeDigits : List Char → List Char × List Char
  | [] => ([], [])
  | c :: rest =>
    if c.isDigit then
      let p := takeDigits rest
      (c :: p.1, p.2)
    else ([], c :: rest)

/-- Numeric value of a digit run. -/
def digitsToNat (l : List Char) : Nat :=
  l.foldl (fun acc c => 10 * acc + (c.toNat - '0'.toNat)) 0

/-- Model of `parseFloat(token)` on the fragment exercised here: optional sign,
then a maximal digit run, then an optional `.` and a second digit run; any
trailing characters are ignored.  `none` models `NaN` (no leading number at
all); `isNaN(parseFloat(token))` is `(parseFloatQ token).isNone`. -/
def parseFloatQ (t : String) : Option ℚ :=
  let l := t.toList
  let signAndRest : Bool × List Char :=
    match l with
    | '+' :: r => (false, r)
    | '-' :: r => (true, r)
    | r => (false, r)
  let ip := takeDigits signAndRest.2
  let fp : List Char :=
    match ip.2 with
    | '.' :: r => (takeDigits r).1
    | _ => []
  if ip.1 = [] && fp = [] then none
  else
    let k := fp.length
    let num : Int := (digitsToNat ip.1 : Int) * (10 : Int) ^ k + (digitsToNat fp : Int)
    some (Rat.divInt (if signAndRest.1 then -num else num) ((10 : Int) ^ k))

/-- `performOperation(operand1, operand2, operator)`: the four arithmetic
cases, the `operand2 === 0` division guard, and the defensive default. -/
def performOperation (a b : ℚ) (op : String) : Except EvalError ℚ :=
  if op = "+" then .ok (a + b)
  else if op = "-" then .ok (a - b)
  else if op = "*" then .ok (a * b)
  else if op = "/" then
    if b = 0 then .error .divisionByZero else .ok (a / b)
  else .error .unknownOperator

/-- The token loop of `evaluatePostfix` over a numeric stack (head = top):
operators pop `operand2` then `operand1`; a token with a parseable numeric
prefix is pushed; a purely alphabetic token raises `unboundVariable`; any
other token is skipped; at the end exactly one value must remain. -/
def evalPostfixGo : List String → List ℚ → Except EvalError ℚ
  | [], stack =>
    match stack with
    | [r] => .ok r
    | _ => .error .malformedExpression
  | t :: ts, stack =>
    if isOperatorToken t then
      match stack with
      | b :: a :: rest =>
        match performOperation a b t with
        | .ok r => evalPostfixGo ts (r :: rest)
        | .error e => .error e
      | _ => .error .insufficientOperands
    else
      match parseFloatQ t with
      | some q => evalPostfixGo ts (q :: stack)
      | none =>
        if isAlphaToken t then .error .unboundVariable
        else evalPostfixGo ts stack

/-- `evaluatePostfix(postfix)`: split on spaces and run the stack loop. -/
def evaluatePostfix (s : String) : Except EvalError ℚ :=
  evalPostfixGo (splitSpace s) []

/-- The token loop of `evaluatePrefix`: identical to `evalPostfixGo` except an
operator pops `operand1` first and `operand2` second. -/
def evalPrefixGo : List String → List ℚ → Except EvalError ℚ
  | [], stack =>
    match stack with
    | [r] => .ok r
    | _ => .error .malformedExpression
  | t :: ts, stack =>
    if isOperatorToken t then
      match stack with
      | a :: b :: rest =>
        match performOperation a b t with
        | .ok r => evalPrefixGo ts (r :: rest)
        | .error e => .error e
      | _ => .error .insufficientOperands
    else
      match parseFloatQ t with
      | some q => evalPrefixGo ts (q :: stack)
      | none =>
        if isAlphaToken t then .error .unboundVariable
        else evalPrefixGo ts stack

/-- `evaluatePrefix(prefix)`: split on spaces, reverse (process right to
left), and run the stack loop. -/
def evaluatePrefix (s : String) : Except EvalError ℚ :=
  evalPrefixGo (splitSpace s).reverse []

end ExprConv

namespace ExprConv

deriving instance DecidableEq for Except

section ClaimTheorems

attribute [local semireducible] Rat.add Rat.mul Rat.sub Rat.inv

/-- C1 (failing input): the spec claims that for every valid infix expression
over numeric literals, `evalPostfix (toPostfix e)` and `evalPrefix (toPrefix e)`
agree and both equal direct left-associative evaluation.  The code violates
this at `e = "2-3+4"`: it passes the validator, the postfix pipeline yields `3`
(the correct value of `(2-3)+4`), but the `>=`-popping prefix conversion
produces `"- 2 + 3 4"`, which evaluates to `2-(3+4) = -5`. -/
theorem prefix_pipeline_disagrees_on_left_assoc_chain :
    validateExpression "2-3+4" = .ok () ∧
    infixToPostfix "2-3+4" = "2 3 - 4 +" ∧
    evaluatePostfix (infixToPostfix "2-3+4") = .ok 3 ∧
    infixToPrefix "2-3+4" = "- 2 + 3 4" ∧
    evaluatePrefix (infixToPrefix "2-3+4") = .ok (-5) ∧
    ((3 : ℚ) ≠ -5) := by decide

/-- C2: the three worked conversion/evaluation examples — `"(2+3)*4"` converts
to `"2 3 + 4 *"` which evaluates to `20`, `"10+2*6"` to `"10 2 6 * +"` which
evaluates to `22`, and `"2+3*4-5"` to `"2 3 4 * + 5 -"` which evaluates to `9`. -/
theorem postfix_conversion_and_eval_examples :
    infixToPostfix "(2+3)*4" = "2 3 + 4 *" ∧
    evaluatePostfix "2 3 + 4 *" = .ok 20 ∧
    infixToPostfix "10+2*6" = "10 2 6 * +" ∧
    evaluatePostfix "10 2 6 * +" = .ok 22 ∧
    infixToPostfix "2+3*4-5" = "2 3 4 * + 5 -" ∧
    evaluatePostfix "2 3 4 * + 5 -" = .ok 9 := by decide

/-- C3: `toPrefix "(2+3)*4"` (reverse, swap parentheses, convert with the
`>=`-precedence Shunting Yard variant, reverse the token sequence) returns
`"* + 2 3 4"`, and `evalPrefix "* + 2 3 4"` returns `20`. -/
theorem prefix_conversion_and_eval_example :
    infixToPrefix "(2+3)*4" = "* + 2 3 4" ∧
    evaluatePrefix "* + 2 3 4" = .ok 20 := by decide

/-- C4 (counterexample): not every input containing `"()"` fails with
`EmptyParens` — the empty-parentheses check is the last of the five, so
`"+()"` contains `"()"` yet fails the earlier boundary check instead. -/
theorem emptyParens_shadowed_by_earlier_check :
    hasEmptyParens "+()".toList = true ∧
    validateExpression "+()" = .error .invalidBoundary ∧
    validateExpression "+()" ≠ .error .emptyParens := by decide

/-- C4 (amended): the five concrete inputs fail with the stated kinds; an
input containing `"()"` never validates (it fails EmptyParens when it reaches
that check, i.e. when the four earlier checks pass, and an earlier error
otherwise), and `validate "()"` itself fails with EmptyParens. -/
theorem validator_error_kinds (s : String) (h : hasEmptyParens s.toList = true) :
    validateExpression s ≠ .ok () ∧
    validateExpression "2++3" = .error .consecutiveOperators ∧
    validateExpression "(2+3" = .error .unmatchedOpeningParen ∧
    validateExpression "2+3)" = .error .unmatchedClosingParen ∧
    validateExpression "()" = .error .emptyParens ∧
    validateExpression "*2+3" = .error .invalidBoundary ∧
    validateExpression "2#3" = .error .invalidCharacter := by
  refine ⟨?_, by decide, by decide, by decide, by decide, by decide, by decide⟩
  intro hok
  unfold validateExpression at hok
  simp only [h] at hok
  split at hok
  · exact Except.noConfusion hok
  · split at hok
    · exact Except.noConfusion hok
    · split at hok
      · exact Except.noConfusion hok
      · split at hok
        · exact Except.noConfusion hok
        · simp only [if_true] at hok
          exact Except.noConfusion hok

/-- C4 witness: `validator_error_kinds` at the concrete input `"()"`. -/
theorem validator_error_kinds_witness :
    hasEmptyParens "()".toList = true ∧ validateExpression "()" ≠ .ok () :=
  ⟨by decide, (validator_error_kinds "()" (by decide)).1⟩

/-- C5: the four concrete evaluation failures — unbound variable, insufficient
operands, division by zero, malformed expression — and, for any operands, a
division in `performOperation` (the operation step shared by both evaluators,
whose second argument is the right-hand operand) fails with DivisionByZero
exactly when that right-hand operand is zero. -/
theorem evaluator_error_kinds (a b : ℚ) :
    evaluatePostfix "x 2 +" = .error .unboundVariable ∧
    evaluatePostfix "2 +" = .error .insufficientOperands ∧
    evaluatePostfix "2 0 /" = .error .divisionByZero ∧
    evaluatePostfix "2 3" = .error .malformedExpression ∧
    (performOperation a b "/" = .error .divisionByZero ↔ b = 0) := by
  refine ⟨by decide, by decide, by decide, by decide, ?_⟩
  unfold performOperation
  by_cases hb : b = 0 <;> simp [hb]

/-- C5 witness: `evaluator_error_kinds` at `a = 1`, `b = 0`. -/
theorem evaluator_error_kinds_witness :
    performOperation 1 0 "/" = .error .divisionByZero :=
  ((evaluator_error_kinds 1 0).2.2.2.2).mpr rfl

/-- C6 (counterexample): when `toPostfix` reads `)` and the operator stack
empties without a `(`, it does not fail — no UnmatchedParen error exists in
the code; `toPostfix "2+3)"` returns the normal result `"2 3 +"`. -/
theorem unmatched_rparen_returns_result :
    infixToPostfix "2+3)" = "2 3 +" := by decide

/-- C6 (amended): on `)`, if the stack holds no `(`, the pop loop drains the
whole stack to the output and conversion silently continues (no error is
raised), e.g. `toPostfix "2+3)" = "2 3 +"`. -/
theorem rparen_drains_stack_silently (stack : List Char) (h : '(' ∉ stack) :
    popUntilLparen stack = (stack.map Char.toString, []) ∧
    infixToPostfix "2+3)" = "2 3 +" := by
  refine ⟨?_, by decide⟩
  induction stack with
  | nil => rfl
  | cons top rest ih =>
    rw [List.mem_cons, not_or] at h
    unfold popUntilLparen
    rw [if_neg (fun e => h.1 e.symm), ih h.2]
    rfl

/-- C6 witness: `rparen_drains_stack_silently` on the one-operator stack `['+']`. -/
theorem rparen_drains_stack_silently_witness :
    ('(' ∉ ['+']) ∧ popUntilLparen ['+'] = (['+'].map Char.toString, []) :=
  ⟨by decide, (rparen_drains_stack_silently ['+'] (by decide)).1⟩

/-- C7: the boundary check exempts `-`: a leading `-` and a lone trailing `-`
both validate, while trailing `+`, `*`, `/` fail with InvalidBoundary. -/
theorem boundary_check_exempts_minus :
    validateExpression "-5+3" = .ok () ∧
    validateExpression "2-" = .ok () ∧
    validateExpression "2+" = .error .invalidBoundary ∧
    validateExpression "2*" = .error .invalidBoundary ∧
    validateExpression "2/" = .error .invalidBoundary := by decide

/-- C8: in both evaluators a non-operator token whose prefix parses as a number
is pushed as that number even if letters follow: the step on any such token
pushes the parsed value, `parseFloat "12x" = 12`, and
`evalPostfix "12x 3 +" = 15`. -/
theorem numeric_prefix_token_pushed_as_number (t : String) (q : ℚ) (ts : List String)
    (stack : List ℚ) (hop : isOperatorToken t = false) (hp : parseFloatQ t = some q) :
    evalPostfixGo (t :: ts) stack = evalPostfixGo ts (q :: stack) ∧
    evalPrefixGo (t :: ts) stack = evalPrefixGo ts (q :: stack) ∧
    parseFloatQ "12x" = some 12 ∧
    evaluatePostfix "12x 3 +" = .ok 15 := by
  refine ⟨?_, ?_, by decide, by decide⟩
  · conv_lhs => unfold evalPostfixGo
    simp only [hop, hp, Bool.false_eq_true, if_false]
  · conv_lhs => unfold evalPrefixGo
    simp only [hop, hp, Bool.false_eq_true, if_false]

/-- C8 witness: `numeric_prefix_token_pushed_as_number` at token `"12x"`. -/
theorem numeric_prefix_token_pushed_as_number_witness :
    isOperatorToken "12x" = false ∧ parseFloatQ "12x" = some 12 ∧
    evalPostfixGo ["12x"] [] = evalPostfixGo [] [12] :=
  ⟨by decide, by decide,
    (numeric_prefix_token_pushed_as_number "12x" 12 [] [] (by decide) (by decide)).1⟩

/-- C9: in both evaluators a token that is no operator, has no parseable
numeric prefix, and is not purely alphabetic is silently skipped (neither
pushed nor reported), so `evalPostfix "x1"` ends with an empty stack and fails
with MalformedExpression rather than UnboundVariable. -/
theorem unclassifiable_token_skipped (t : String) (ts : List String) (stack : List ℚ)
    (hop : isOperatorToken t = false) (hp : parseFloatQ t = none)
    (ha : isAlphaToken t = false) :
    evalPostfixGo (t :: ts) stack = evalPostfixGo ts stack ∧
    evalPrefixGo (t :: ts) stack = evalPrefixGo ts stack ∧
    evaluatePostfix "x1" = .error .malformedExpression ∧
    evaluatePostfix "x1" ≠ .error .unboundVariable := by
  refine ⟨?_, ?_, by decide, by decide⟩
  · conv_lhs => unfold evalPostfixGo
    simp only [hop, hp, ha, Bool.false_eq_true, if_false]
  · conv_lhs => unfold evalPrefixGo
    simp only [hop, hp, ha, Bool.false_eq_true, if_false]

/-- C9 witness: `unclassifiable_token_skipped` at token `"x1"`. -/
theorem unclassifiable_token_skipped_witness :
    isOperatorToken "x1" = false ∧ parseFloatQ "x1" = none ∧ isAlphaToken "x1" = false ∧
    evalPostfixGo ["x1"] [] = evalPostfixGo [] [] :=
  ⟨by decide, by decide, by decide,
    (unclassifiable_token_skipped "x1" [] [] (by decide) (by decide) (by decide)).1⟩

/-- C10: called directly on an input with an unmatched `(` (bypassing the
validator), the leftover `(` on the operator stack is popped into the output
like an operator: `toPostfix "(2+3" = "2 3 + ("`. -/
theorem leftover_lparen_popped_to_output :
    infixToPostfix "(2+3" = "2 3 + (" := by decide

end ClaimTheorems

end ExprConv
